import Mathlib

/-!
Shallow embedding of `src/components/upload-screen-dialog.tsx` (the screen
upload dialog): the `screens` table, the create-or-update-by-name submission
flow (`onSubmit`, `updateExistingScreen`, `createNewVersion`,
`createNewScreen`), the zod form schema and the dropzone configuration.

Backend calls are modelled by explicit state passing over the table plus an
environment of failure flags (one per kind of backend round trip) and the
surrogate id the storage assigns to an inserted row.  Each run also records a
trace of the backend calls it attempted.
-/

set_option autoImplicit false

namespace Handover

/-- A row of the `screens` relation: columns `id, name, html_file, version,
changes` (spec §6). -/
structure ScreenRow where
  id : Int
  name : String
  html_file : String
  version : Int
  changes : String
  deriving Repr, DecidableEq

abbrev Table := List ScreenRow

/-- Outcomes of the backend round trips for one submission, plus the surrogate
id the storage generates for an inserted row.  At most one insert happens per
submission, so a single id suffices. -/
structure Env where
  lookupError : Bool
  versionReadError : Bool
  insertError : Bool
  updateError : Bool
  nextId : Int
  deriving Repr, DecidableEq

/-- A backend call attempted during a submission, in order. -/
inductive DbCall where
  | lookup (name : String)
  | versionRead
  | insert (row : ScreenRow)
  | update (id : Int) (html : String)
  deriving Repr, DecidableEq

def DbCall.isUpdate : DbCall → Bool
  | .update _ _ => true
  | _ => false

def DbCall.isLookup : DbCall → Bool
  | .lookup _ => true
  | _ => false

/-- The existence lookup of lines 108-112: select id from screens where name
equals n, with maybeSingle, restricted to its data/error pair.  Per the
supabase-js maybeSingle semantics, zero matching rows give data null and no
error, exactly one row gives that row, and more than one matching row yields
an error with data null. -/
def maybeSingleLookup (t : Table) (n : String) : Option Int × Bool :=
  match t.filter (fun r => r.name == n) with
  | [] => (none, false)
  | [r] => (some r.id, false)
  | _ :: _ :: _ => (none, true)

/-- The lookup step of onSubmit, lines 108-112: a network-level failure also
yields data null together with an error. -/
def lookupStep (env : Env) (t : Table) (n : String) : Option Int × Bool :=
  if env.lookupError then (none, true) else maybeSingleLookup t n

/-- The version carried by the top row of the query of lines 148-152: select
version ordered by version descending, limited to one row.  It is the maximum
version across the whole table, with no name filter. -/
def tableMaxVersion : Table → Option Int
  | [] => none
  | r :: rs => some (rs.foldl (fun m s => max m s.version) r.version)

/-- The data list returned by the max-version query: empty table gives `[]`,
otherwise a single element carrying the global maximum version. -/
def versionQuery (t : Table) : List (Option Int) :=
  match tableMaxVersion t with
  | none => []
  | some m => [some m]

/-- Line 154, the newVersion expression, with the JavaScript coercions made
explicit: a null lastVersion (query error, data destructured alone) is falsy,
so the or-else constant 1 applies.  On an empty list the optional chain yields
undefined, and undefined plus one is NaN, falsy, hence 1.  A null version
field gives null plus one, which is 1 in JavaScript.  A numeric version v
gives v + 1 unless that sum is 0, which is falsy and falls back to 1. -/
def computeNewVersion (lastVersion : Option (List (Option Int))) : Int :=
  match lastVersion with
  | none => 1
  | some [] => 1
  | some (none :: _) => 1
  | some (some v :: _) => if v + 1 = 0 then 1 else v + 1

/-- Result of one embedded backend step or of a whole submission body:
the table after the step, the calls attempted, and whether an error was
thrown (`Except.error`) or the step completed (`Except.ok`). -/
structure StepResult where
  table : Table
  trace : List DbCall
  res : Except Unit Unit
  deriving Repr

/-- The function createNewVersion of lines 147-173: read the global max
version, with any query error silently discarded, compute the new version,
then insert a history row whose changes column holds the placeholder text;
throws on insert error. -/
def createNewVersion (env : Env) (t : Table) (name file : String) : StepResult :=
  let lastVersion : Option (List (Option Int)) :=
    if env.versionReadError then none else some (versionQuery t)
  let newVersion := computeNewVersion lastVersion
  let row : ScreenRow :=
    ⟨env.nextId, name, file, newVersion, "TODO: Specify the changes here"⟩
  if env.insertError then
    ⟨t, [DbCall.versionRead, DbCall.insert row], Except.error ()⟩
  else
    ⟨t ++ [row], [DbCall.versionRead, DbCall.insert row], Except.ok ()⟩

/-- The update call of lines 134-137: set html_file on every row whose id
equals screenId and leave every other row unchanged. -/
def applyHtmlUpdate (t : Table) (screenId : Int) (file : String) : Table :=
  t.map fun r => if r.id = screenId then { r with html_file := file } else r

/-- The function updateExistingScreen of lines 127-144: run createNewVersion,
rethrow its error if any (the undefined-response guards are dead code, since a
resolved call always yields an object), then update html_file of the rows
carrying the matched id; throws on update error. -/
def updateExistingScreen (env : Env) (t : Table) (name file : String)
    (screenId : Int) : StepResult :=
  let v := createNewVersion env t name file
  match v.res with
  | Except.error e => ⟨v.table, v.trace, Except.error e⟩
  | Except.ok _ =>
    if env.updateError then
      ⟨v.table, v.trace ++ [DbCall.update screenId file], Except.error ()⟩
    else
      ⟨applyHtmlUpdate v.table screenId file,
        v.trace ++ [DbCall.update screenId file], Except.ok ()⟩

/-- The function createNewScreen of lines 176-186: insert one row with
version 1 and an empty changes column; throws on insert error. -/
def createNewScreen (env : Env) (t : Table) (name file : String) : StepResult :=
  let row : ScreenRow := ⟨env.nextId, name, file, 1, ""⟩
  if env.insertError then
    ⟨t, [DbCall.insert row], Except.error ()⟩
  else
    ⟨t ++ [row], [DbCall.insert row], Except.ok ()⟩

/-- Outcome of onSubmit: final table, call trace, whether the catch branch
ran, logging to the console, and the success effects of refreshing the router
view and closing the dialog. -/
structure SubmitResult where
  table : Table
  trace : List DbCall
  aborted : Bool
  consoleLogged : Bool
  refreshed : Bool
  dialogClosed : Bool
  deriving Repr, DecidableEq

/-- Epilogue of onSubmit, lines 119-124: on a completed body the view
refreshes and the dialog closes; on a thrown error the catch branch logs to
the console, the dialog stays open and no refresh happens.  The trace records
the initial lookup call in front of the calls of the body. -/
def finishSubmit (name : String) (body : StepResult) : SubmitResult :=
  match body.res with
  | Except.ok _ =>
    ⟨body.table, DbCall.lookup name :: body.trace, false, false, true, true⟩
  | Except.error _ =>
    ⟨body.table, DbCall.lookup name :: body.trace, true, true, false, false⟩

/-- The function onSubmit of lines 106-125: look up an existing row by name,
with the error field of the lookup result discarded since only data is
destructured, branch to the update or the create path, and finish with the
success effects or the catch branch. -/
def onSubmit (env : Env) (t : Table) (name file : String) : SubmitResult :=
  let existingScreen := (lookupStep env t name).1
  let body : StepResult :=
    match existingScreen with
    | some screenId => updateExistingScreen env t name file screenId
    | none => createNewScreen env t name file
  finishSubmit name body

/-- The validation message of the name field of the zod schema, line 41. -/
def nameMinMessage : String := "Name must be at least 2 characters."

def fileMinMessage : String := "A file is necessary."

/-- The zod formSchema of lines 39-44: name and file are strings of minimum
length 2; returns the list of validation messages. -/
def validateForm (name file : String) : List String :=
  (if name.length < 2 then [nameMinMessage] else []) ++
  (if file.length < 2 then [fileMinMessage] else [])

/-- The wiring of line 203, handleSubmit around onSubmit: the handler runs
only when validation produces no message; otherwise the submission is blocked
before any backend call. -/
def submitForm (env : Env) (t : Table) (name file : String) :
    Option SubmitResult :=
  if validateForm name file = [] then some (onSubmit env t name file) else none

/-- A file offered to the dropzone: browser-reported name, MIME type, size in
bytes, and its text content. -/
structure DroppedFile where
  name : String
  mime : String
  size : Nat
  content : String
  deriving Repr, DecidableEq

/-- The useDropzone configuration of lines 46-53. -/
structure DropzoneConfig where
  accept : List String
  maxFiles : Nat
  maxSize : Nat
  deriving Repr, DecidableEq

/-- The concrete dropzone options: the accept object maps the SVG MIME type
to the list holding the .svg extension, with maxFiles 1 and maxSize ten
mebibytes; react-dropzone flattens the accept object into the entry list of
its keys and extensions. -/
def uploadDropzoneConfig : DropzoneConfig :=
  ⟨["image/svg+xml", ".svg"], 1, 1024 * 1024 * 10⟩

/-- Lowercasing of a string, character by character, as the attr-accept
package used by react-dropzone applies to file names and accept entries. -/
def lowerString (s : String) : String := ⟨s.data.map Char.toLower⟩

/-- Whitespace trimming of an accept entry, as attr-accept applies before
comparing. -/
def trimString (s : String) : String :=
  ⟨((s.data.dropWhile Char.isWhitespace).reverse.dropWhile
      Char.isWhitespace).reverse⟩

/-- One entry of the accept list, matched per the attr-accept package used by
react-dropzone: the entry is trimmed and lowercased; an entry starting with a
dot matches the lowercased file name by suffix, an entry ending in a
slash-star wildcard matches the base MIME type, and any other entry must
equal the MIME type of the file verbatim. -/
def acceptEntryMatch (entry : String) (f : DroppedFile) : Bool :=
  let v := lowerString (trimString entry)
  match v.data with
  | '.' :: _ => v.data.isSuffixOf (lowerString f.name).data
  | _ =>
    if ['/', '*'].isSuffixOf v.data then
      f.mime.data.takeWhile (fun c => c ≠ '/') ==
        v.data.takeWhile (fun c => c ≠ '/')
    else f.mime == v

/-- The react-dropzone file acceptance check: the file matches some accept
entry and its size does not exceed maxSize, a file being too large only when
its size strictly exceeds maxSize. -/
def dropzoneAccepts (cfg : DropzoneConfig) (f : DroppedFile) : Bool :=
  cfg.accept.any (fun a => acceptEntryMatch a f) && f.size ≤ cfg.maxSize

/-- The chain of lines 52 and 83-94, from onDrop through handleFileChange to
the setValue call on the file field: an accepted file has its entire text
content stored as the file field value of the form; a rejected file never
reaches the handler and the form value is unchanged. -/
def processDrop (cfg : DropzoneConfig) (f : DroppedFile) (formFile : String) :
    String :=
  if dropzoneAccepts cfg f then f.content else formFile

/-! Concrete inputs shared by witnesses and counterexamples. -/

/-- An environment in which every backend round trip succeeds. -/
def envOk : Env := ⟨false, false, false, false, 100⟩

/-- An environment whose existence lookup fails at the network level. -/
def envLookErr : Env := ⟨true, false, false, false, 100⟩

/-- An environment whose max-version read fails. -/
def envVerErr : Env := ⟨false, true, false, false, 100⟩

/-- An environment whose insert fails. -/
def envInsErr : Env := ⟨false, false, true, false, 100⟩

/-- An environment whose html_file update fails. -/
def envUpdErr : Env := ⟨false, false, false, true, 100⟩

/-- A table in which two rows share the name a, with global max version 5. -/
def dupTable : Table := [⟨1, "a", "x", 1, "c"⟩, ⟨2, "a", "y", 5, "c"⟩]

/-- A table with a single row named aa, of version 3. -/
def oneTable : Table := [⟨1, "aa", "old", 3, "c"⟩]

/-! Dispatch lemmas for the embedded operations. -/

/-- With the network up and exactly one row bearing the name, the lookup step
returns that row with no error. -/
theorem lookupStep_unique (env : Env) (t : Table) (n : String) (r : ScreenRow)
    (hl : env.lookupError = false)
    (hone : t.filter (fun s => s.name == n) = [r]) :
    lookupStep env t n = (some r.id, false) := by
  unfold lookupStep maybeSingleLookup
  rw [hl, hone]
  simp

/-- With no row bearing the name, the data field of the lookup step is null,
whether or not the network call failed. -/
theorem lookupStep_empty (env : Env) (t : Table) (n : String)
    (hnone : t.filter (fun s => s.name == n) = []) :
    (lookupStep env t n).1 = none := by
  unfold lookupStep maybeSingleLookup
  cases henv : env.lookupError <;> simp [hnone]

/-- With the network up and at least two rows bearing the name, the lookup
step reports an error and a null data field. -/
theorem lookupStep_dup (env : Env) (t : Table) (n : String)
    (hl : env.lookupError = false)
    (hdup : 2 ≤ (t.filter (fun s => s.name == n)).length) :
    lookupStep env t n = (none, true) := by
  unfold lookupStep maybeSingleLookup
  rw [hl]
  rcases hf : t.filter (fun s => s.name == n) with _ | ⟨a, _ | ⟨b, l⟩⟩
  · rw [hf] at hdup; simp at hdup
  · rw [hf] at hdup; simp at hdup
  · rw [hf]
    simp

/-- When the lookup data field is null, onSubmit takes the create path. -/
theorem onSubmit_create (env : Env) (t : Table) (name file : String)
    (h : (lookupStep env t name).1 = none) :
    onSubmit env t name file = finishSubmit name (createNewScreen env t name file) := by
  unfold onSubmit
  rw [h]

/-- When the lookup data field carries an id, onSubmit takes the update path
with that id. -/
theorem onSubmit_update (env : Env) (t : Table) (name file : String) (i : Int)
    (h : (lookupStep env t name).1 = some i) :
    onSubmit env t name file =
      finishSubmit name (updateExistingScreen env t name file i) := by
  unfold onSubmit
  rw [h]

/-! Claim theorems. -/

/-- C10: in createNewVersion the new version number falls back to 1 whenever
the max-version query yields no usable value, namely when the result list is
null or empty, when the version field of the top row is missing or null, and
when the computed successor is falsy because the stored maximum is minus one;
otherwise it is the returned maximum plus one. -/
theorem claim_C10_fallback :
    computeNewVersion none = 1 ∧
    computeNewVersion (some []) = 1 ∧
    (∀ rest : List (Option Int), computeNewVersion (some (none :: rest)) = 1) ∧
    (∀ (v : Int) (rest : List (Option Int)), v + 1 = 0 →
      computeNewVersion (some (some v :: rest)) = 1) ∧
    (∀ (v : Int) (rest : List (Option Int)), v + 1 ≠ 0 →
      computeNewVersion (some (some v :: rest)) = v + 1) := by
  refine ⟨rfl, rfl, fun rest => rfl, fun v rest h => ?_, fun v rest h => ?_⟩
  · simp [computeNewVersion, h]
  · simp [computeNewVersion, h]

/-- C10 witness: the fallback at stored maximum minus one, and the successor
at stored maximum five. -/
theorem claim_C10_fallback_witness :
    (-1 : Int) + 1 = 0 ∧ computeNewVersion (some [some (-1)]) = 1 ∧
    (5 : Int) + 1 ≠ 0 ∧ computeNewVersion (some [some 5]) = 6 := by
  have h := claim_C10_fallback
  refine ⟨by norm_num, h.2.2.2.1 (-1) [] (by norm_num), by norm_num, ?_⟩
  have h6 := h.2.2.2.2 5 [] (by norm_num)
  simpa using h6

/-- C8: a submission whose name field is shorter than 2 characters, or whose
file field is shorter than 2 characters, is blocked before any backend call,
and a short name produces the validation message of the name field. -/
theorem claim_C8_validation (env : Env) (t : Table) (name file : String)
    (h : name.length < 2 ∨ file.length < 2) :
    submitForm env t name file = none ∧
    (name.length < 2 → nameMinMessage ∈ validateForm name file) := by
  constructor
  · unfold submitForm validateForm
    rcases h with h | h
    · simp [h]
    · rcases Nat.lt_or_ge name.length 2 with h2 | h2
      · simp [h, h2]
      · simp [h, Nat.not_lt.mpr h2]
  · intro h2
    unfold validateForm
    simp [h2, nameMinMessage]

/-- C8 witness: the one-character name x with a valid file is blocked and
yields the message. -/
theorem claim_C8_validation_witness :
    ("x".length < 2 ∨ "ff".length < 2) ∧
    submitForm envOk [] "x" "ff" = none ∧
    ("x".length < 2 → nameMinMessage ∈ validateForm "x" "ff") :=
  ⟨Or.inl (by decide), claim_C8_validation envOk [] "x" "ff" (Or.inl (by decide))⟩

/-- C2: a submission whose name matches no existing row inserts exactly one
new row, with version 1 and an empty changes column, performs no update of
any existing row, and the operation completes. -/
theorem claim_C2_create (env : Env) (t : Table) (name file : String)
    (hnone : t.filter (fun r => r.name == name) = [])
    (hins : env.insertError = false) :
    (onSubmit env t name file).table =
      t ++ [⟨env.nextId, name, file, 1, ""⟩] ∧
    (onSubmit env t name file).trace =
      [DbCall.lookup name, DbCall.insert ⟨env.nextId, name, file, 1, ""⟩] ∧
    (onSubmit env t name file).aborted = false := by
  rw [onSubmit_create env t name file (lookupStep_empty env t name hnone)]
  unfold createNewScreen finishSubmit
  rw [hins]
  simp

/-- C2 witness: submitting the fresh name nn over the empty table. -/
theorem claim_C2_create_witness :
    (onSubmit envOk [] "nn" "ff").table =
      [] ++ [⟨envOk.nextId, "nn", "ff", 1, ""⟩] ∧
    (onSubmit envOk [] "nn" "ff").trace =
      [DbCall.lookup "nn", DbCall.insert ⟨envOk.nextId, "nn", "ff", 1, ""⟩] ∧
    (onSubmit envOk [] "nn" "ff").aborted = false :=
  claim_C2_create envOk [] "nn" "ff" rfl rfl

/-- C7: when the existence lookup reports an error, because the network call
failed or because several rows share the submitted name, the error is
discarded without being thrown or logged, the data field is null, and the
operation silently takes the create path, inserting a fresh row with
version 1. -/
theorem claim_C7_discard (env : Env) (t : Table) (name file : String)
    (herr : env.lookupError = true ∨
      2 ≤ (t.filter (fun s => s.name == name)).length)
    (hins : env.insertError = false) :
    (lookupStep env t name).1 = none ∧
    (lookupStep env t name).2 = true ∧
    (onSubmit env t name file).table =
      t ++ [⟨env.nextId, name, file, 1, ""⟩] ∧
    (onSubmit env t name file).aborted = false ∧
    (onSubmit env t name file).consoleLogged = false := by
  have hls : lookupStep env t name = (none, true) := by
    cases hl : env.lookupError with
    | true => unfold lookupStep; rw [hl]; simp
    | false =>
      rcases herr with h | h
      · rw [hl] at h; exact absurd h (by simp)
      · exact lookupStep_dup env t name hl h
  have h1 : (lookupStep env t name).1 = none := by rw [hls]
  refine ⟨h1, by rw [hls], ?_⟩
  rw [onSubmit_create env t name file h1]
  unfold createNewScreen finishSubmit
  rw [hins]
  simp

/-- C7 witness: a network-level lookup failure over the one-row table still
ends in a fresh version-1 row and a completed submission. -/
theorem claim_C7_discard_witness :
    (lookupStep envLookErr oneTable "aa").1 = none ∧
    (lookupStep envLookErr oneTable "aa").2 = true ∧
    (onSubmit envLookErr oneTable "aa" "new").table =
      oneTable ++ [⟨envLookErr.nextId, "aa", "new", 1, ""⟩] ∧
    (onSubmit envLookErr oneTable "aa" "new").aborted = false ∧
    (onSubmit envLookErr oneTable "aa" "new").consoleLogged = false :=
  claim_C7_discard envLookErr oneTable "aa" "new" (Or.inl rfl) rfl

/-- C3: in the update path, a failed version insert means the html_file
update is never attempted and the table is left as it was, while a failed
html_file update leaves the already inserted version row in the table with no
rollback; in either case the whole operation aborts. -/
theorem claim_C3_abort (t : Table) (name file : String) (r : ScreenRow)
    (hone : t.filter (fun s => s.name == name) = [r])
    (env1 env2 : Env)
    (h1l : env1.lookupError = false) (h1i : env1.insertError = true)
    (h2l : env2.lookupError = false) (h2i : env2.insertError = false)
    (h2u : env2.updateError = true) :
    ((∀ c ∈ (onSubmit env1 t name file).trace, c.isUpdate = false) ∧
      (onSubmit env1 t name file).aborted = true ∧
      (onSubmit env1 t name file).table = t) ∧
    ((∃ v : Int, (⟨env2.nextId, name, file, v,
        "TODO: Specify the changes here"⟩ : ScreenRow) ∈
          (onSubmit env2 t name file).table) ∧
      (onSubmit env2 t name file).aborted = true) := by
  have hs1 : (lookupStep env1 t name).1 = some r.id := by
    rw [lookupStep_unique env1 t name r h1l hone]
  have hs2 : (lookupStep env2 t name).1 = some r.id := by
    rw [lookupStep_unique env2 t name r h2l hone]
  rw [onSubmit_update env1 t name file r.id hs1,
    onSubmit_update env2 t name file r.id hs2]
  constructor
  · unfold updateExistingScreen createNewVersion finishSubmit
    rw [h1i]
    refine ⟨?_, rfl, rfl⟩
    intro c hc
    fin_cases hc <;> rfl
  · unfold updateExistingScreen createNewVersion finishSubmit
    rw [h2i, h2u]
    refine ⟨⟨computeNewVersion (if env2.versionReadError = true then none
      else some (versionQuery t)), ?_⟩, rfl⟩
    exact List.mem_append_right t (List.mem_singleton.mpr rfl)

/-- C3 witness: over the one-row table, a failed insert leaves the table
unchanged with no update call attempted, and a failed update leaves the
freshly inserted version-4 history row in place; both runs abort. -/
theorem claim_C3_abort_witness :
    (onSubmit envInsErr oneTable "aa" "new").aborted = true ∧
    (onSubmit envInsErr oneTable "aa" "new").table = oneTable ∧
    (onSubmit envUpdErr oneTable "aa" "new").aborted = true ∧
    (⟨100, "aa", "new", 4, "TODO: Specify the changes here"⟩ : ScreenRow) ∈
      (onSubmit envUpdErr oneTable "aa" "new").table := by
  have h := claim_C3_abort oneTable "aa" "new" ⟨1, "aa", "old", 3, "c"⟩
    (by decide) envInsErr envUpdErr rfl rfl rfl rfl rfl
  exact ⟨h.1.2.1, h.1.2.2, h.2.2, by decide⟩

/-- C4: the update step changes only the html_file field of the rows whose id
matches the looked-up id; every such row keeps its id, name, version and
changes, and every row with a different id is left entirely unchanged, at its
position. -/
theorem claim_C4_frame (t : Table) (screenId : Int) (file : String) :
    (applyHtmlUpdate t screenId file).length = t.length ∧
    (∀ (j : Nat) (r rr : ScreenRow), t[j]? = some r →
      (applyHtmlUpdate t screenId file)[j]? = some rr →
      rr.id = r.id ∧ rr.name = r.name ∧ rr.version = r.version ∧
      rr.changes = r.changes ∧
      (r.id = screenId → rr.html_file = file) ∧
      (r.id ≠ screenId → rr = r)) := by
  constructor
  · simp [applyHtmlUpdate]
  · intro j r rr hr hrr
    unfold applyHtmlUpdate at hrr
    rw [List.getElem?_map, hr] at hrr
    simp only [Option.map_some'] at hrr
    cases hrr
    by_cases hid : r.id = screenId
    · simp [hid]
    · simp [hid]

/-- C4 witness: updating the row of id 2 in the two-row table keeps the
length and the version of that row. -/
theorem claim_C4_frame_witness :
    (applyHtmlUpdate dupTable 2 "new").length = dupTable.length ∧
    (⟨2, "a", "new", 5, "c"⟩ : ScreenRow).version =
      (⟨2, "a", "y", 5, "c"⟩ : ScreenRow).version := by
  have h := claim_C4_frame dupTable 2 "new"
  exact ⟨h.1, (h.2 1 ⟨2, "a", "y", 5, "c"⟩ ⟨2, "a", "new", 5, "c"⟩
    (by decide) (by decide)).2.2.1⟩

/-- C6 amended: a submission aborts exactly when the attempted insert fails
or when the html_file update of the update path fails; such an error reaches
the outermost handler, which only logs to the console, leaving the dialog
open with no view refresh, while lookup and version-read errors are silently
discarded where they occur, and a submission without insert or update failure
completes, closing the dialog and refreshing the view. -/
theorem claim_C6_outcomes (env : Env) (t : Table) (name file : String) :
    ((onSubmit env t name file).aborted = true →
      (onSubmit env t name file).consoleLogged = true ∧
      (onSubmit env t name file).refreshed = false ∧
      (onSubmit env t name file).dialogClosed = false) ∧
    ((onSubmit env t name file).aborted = false →
      (onSubmit env t name file).consoleLogged = false ∧
      (onSubmit env t name file).refreshed = true ∧
      (onSubmit env t name file).dialogClosed = true) ∧
    ((onSubmit env t name file).aborted = true ↔
      (env.insertError = true ∨
        ((lookupStep env t name).1.isSome = true ∧
          env.updateError = true))) := by
  cases hd : (lookupStep env t name).1 with
  | none =>
    rw [onSubmit_create env t name file hd]
    cases hi : env.insertError <;>
      simp [createNewScreen, finishSubmit, hi]
  | some i =>
    rw [onSubmit_update env t name file i hd]
    cases hi : env.insertError <;> cases hu : env.updateError <;>
      simp [updateExistingScreen, createNewVersion, finishSubmit, hi, hu]

/-- C6 witness: an insert failure on the create path over the empty table
aborts, is logged, and leaves the dialog open with no refresh, while the
failure-free run over the one-row table completes, closing the dialog and
refreshing the view. -/
theorem claim_C6_outcomes_witness :
    (onSubmit envInsErr [] "bb" "ff").aborted = true ∧
    (onSubmit envInsErr [] "bb" "ff").consoleLogged = true ∧
    (onSubmit envInsErr [] "bb" "ff").refreshed = false ∧
    (onSubmit envInsErr [] "bb" "ff").dialogClosed = false ∧
    (onSubmit envOk oneTable "aa" "new").aborted = false ∧
    (onSubmit envOk oneTable "aa" "new").refreshed = true ∧
    (onSubmit envOk oneTable "aa" "new").dialogClosed = true := by
  have h1 := claim_C6_outcomes envOk oneTable "aa" "new"
  have h2 := claim_C6_outcomes envInsErr ([] : Table) "bb" "ff"
  have hab2 : (onSubmit envInsErr [] "bb" "ff").aborted = true :=
    h2.2.2.mpr (Or.inl rfl)
  have hflags2 := h2.1 hab2
  have hab1 : (onSubmit envOk oneTable "aa" "new").aborted = false := by
    cases hab : (onSubmit envOk oneTable "aa" "new").aborted with
    | false => rfl
    | true =>
      rcases h1.2.2.mp hab with hx | ⟨_, hx⟩ <;> exact absurd hx (by decide)
  have hflags1 := h1.2.1 hab1
  exact ⟨hab2, hflags2.1, hflags2.2.1, hflags2.2.2, hab1,
    hflags1.2.1, hflags1.2.2⟩

/-- The trace of the epilogue records the initial lookup call in front of the
calls of the body, whatever the outcome. -/
theorem finishSubmit_trace (name : String) (b : StepResult) :
    (finishSubmit name b).trace = DbCall.lookup name :: b.trace := by
  unfold finishSubmit
  cases b.res <;> rfl

/-- The create path attempts exactly one insert, whether or not it fails. -/
theorem createNewScreen_trace (env : Env) (t : Table) (name file : String) :
    (createNewScreen env t name file).trace =
      [DbCall.insert ⟨env.nextId, name, file, 1, ""⟩] := by
  unfold createNewScreen
  cases hi : env.insertError <;> simp

/-- The update path attempts the version read, then the insert, then the
html_file update unless the insert failed. -/
theorem updateExistingScreen_trace (env : Env) (t : Table)
    (name file : String) (i : Int) :
    (updateExistingScreen env t name file i).trace =
      DbCall.versionRead ::
        DbCall.insert ⟨env.nextId, name, file,
          computeNewVersion
            (if env.versionReadError then none else some (versionQuery t)),
          "TODO: Specify the changes here"⟩ ::
        (if env.insertError then [] else [DbCall.update i file]) := by
  unfold updateExistingScreen createNewVersion
  cases hi : env.insertError <;> cases hu : env.updateError <;> simp

/-- An accumulator is bounded by the fold computing the running maximum of
the versions of a table. -/
theorem le_foldl_max_version (l : Table) (a : Int) :
    a ≤ l.foldl (fun m s => max m s.version) a := by
  induction l generalizing a with
  | nil => exact le_refl a
  | cons s l ih => exact le_trans (le_max_left a s.version) (ih (max a s.version))

/-- C1 counterexample: in the two-row table both rows are named a, so the
submitted name matches existing rows, yet the operation inserts a version-1
row rather than a row of version 6, one greater than the global maximum 5,
and updates the html_file of no row. -/
theorem claim_C1_counterexample :
    (dupTable.filter (fun r => r.name == "a")).length = 2 ∧
    tableMaxVersion dupTable = some 5 ∧
    (onSubmit envOk dupTable "a" "new").table =
      dupTable ++ [⟨100, "a", "new", 1, ""⟩] ∧
    (∀ c ∈ (onSubmit envOk dupTable "a" "new").trace, c.isUpdate = false) ∧
    (∀ s ∈ (onSubmit envOk dupTable "a" "new").table, s.version ≠ 6) := by
  decide

/-- C1 amended: for a submission whose name matches exactly one existing row,
with stored versions at least 1, a fresh surrogate id and no backend failure,
the operation inserts a second row whose version equals one greater than the
maximum version across all rows of all names, a global maximum not scoped to
the submitted name, and then updates the html_file of the matched original
row to the newly submitted content. -/
theorem claim_C1_updatePath (env : Env) (t : Table) (name file : String)
    (r : ScreenRow)
    (hone : t.filter (fun s => s.name == name) = [r])
    (hl : env.lookupError = false) (hv : env.versionReadError = false)
    (hi : env.insertError = false) (hu : env.updateError = false)
    (hver : ∀ s ∈ t, 1 ≤ s.version)
    (hfresh : ∀ s ∈ t, s.id ≠ env.nextId) :
    ∃ m : Int, tableMaxVersion t = some m ∧
      (onSubmit env t name file).table =
        applyHtmlUpdate t r.id file ++
          [⟨env.nextId, name, file, m + 1, "TODO: Specify the changes here"⟩] ∧
      (onSubmit env t name file).aborted = false := by
  have hrmem : r ∈ t := by
    have hx : r ∈ t.filter (fun s => s.name == name) := by
      rw [hone]; exact List.mem_singleton_self r
    exact (List.mem_filter.mp hx).1
  obtain ⟨a, as, rfl⟩ : ∃ a as, t = a :: as := by
    cases t with
    | nil => simp at hone
    | cons a as => exact ⟨a, as, rfl⟩
  refine ⟨_, rfl, ?_⟩
  have hm1 : 1 ≤ as.foldl (fun m s => max m s.version) a.version :=
    le_trans (hver a (List.mem_cons_self a as))
      (le_foldl_max_version as a.version)
  have hcv : computeNewVersion (some (versionQuery (a :: as))) =
      as.foldl (fun m s => max m s.version) a.version + 1 := by
    have hq : versionQuery (a :: as) =
        [some (as.foldl (fun m s => max m s.version) a.version)] := rfl
    rw [hq]
    simp only [computeNewVersion]
    rw [if_neg (by omega)]
  have hneq : env.nextId ≠ r.id := fun h => hfresh r hrmem h.symm
  rw [onSubmit_update env (a :: as) name file r.id
    (by rw [lookupStep_unique env (a :: as) name r hl hone])]
  unfold updateExistingScreen createNewVersion finishSubmit
  rw [hv, hi, hu]
  simp only [Bool.false_eq_true, if_false, hcv]
  constructor
  · unfold applyHtmlUpdate
    rw [List.map_append]
    simp [hneq]
  · trivial

/-- C1 witness: over the one-row table of version 3, submitting its name
inserts a version-4 history row and rewrites the html_file of the original
row. -/
theorem claim_C1_updatePath_witness :
    ∃ m : Int, tableMaxVersion oneTable = some m ∧
      (onSubmit envOk oneTable "aa" "new").table =
        applyHtmlUpdate oneTable 1 "new" ++
          [⟨100, "aa", "new", m + 1, "TODO: Specify the changes here"⟩] ∧
      (onSubmit envOk oneTable "aa" "new").aborted = false :=
  claim_C1_updatePath envOk oneTable "aa" "new" ⟨1, "aa", "old", 3, "c"⟩
    (by decide) rfl rfl rfl rfl (by decide) (by decide)

/-- C5 counterexample: with two rows named a and the network up, the lookup
reports an error and picks no row, and the submission does not proceed on the
update path: no version read and no update call is attempted, and a fresh
version-1 row is created instead. -/
theorem claim_C5_counterexample :
    (dupTable.filter (fun r => r.name == "a")).length = 2 ∧
    envOk.lookupError = false ∧
    (lookupStep envOk dupTable "a").1 = none ∧
    (lookupStep envOk dupTable "a").2 = true ∧
    DbCall.versionRead ∉ (onSubmit envOk dupTable "a" "new").trace ∧
    (∀ c ∈ (onSubmit envOk dupTable "a" "new").trace, c.isUpdate = false) := by
  decide

/-- C5 amended: the existence check is a single lookup of a row matching the
submitted name; when exactly one row bears the name the operation proceeds on
the update path, and when several rows share the name the lookup reports an
error, picks no row, and the operation proceeds on the create path with a
version-1 insert. -/
theorem claim_C5_lookup (env : Env) (t : Table) (name file : String)
    (hl : env.lookupError = false) :
    (onSubmit env t name file).trace.countP (fun c => c.isLookup) = 1 ∧
    (∀ r : ScreenRow, t.filter (fun s => s.name == name) = [r] →
      DbCall.versionRead ∈ (onSubmit env t name file).trace) ∧
    (2 ≤ (t.filter (fun s => s.name == name)).length →
      (lookupStep env t name).2 = true ∧
      DbCall.versionRead ∉ (onSubmit env t name file).trace ∧
      DbCall.insert ⟨env.nextId, name, file, 1, ""⟩ ∈
        (onSubmit env t name file).trace) := by
  refine ⟨?_, ?_, ?_⟩
  · cases hd : (lookupStep env t name).1 with
    | none =>
      rw [onSubmit_create env t name file hd, finishSubmit_trace,
        createNewScreen_trace]
      simp [List.countP_cons, DbCall.isLookup]
    | some i =>
      rw [onSubmit_update env t name file i hd, finishSubmit_trace,
        updateExistingScreen_trace]
      cases hi : env.insertError <;>
        simp [List.countP_cons, DbCall.isLookup]
  · intro r hone
    rw [onSubmit_update env t name file r.id
      (by rw [lookupStep_unique env t name r hl hone]), finishSubmit_trace,
      updateExistingScreen_trace]
    exact List.mem_cons_of_mem _ (List.mem_cons_self _ _)
  · intro hdup
    have hls : lookupStep env t name = (none, true) :=
      lookupStep_dup env t name hl hdup
    have hd : (lookupStep env t name).1 = none := by rw [hls]
    refine ⟨by rw [hls], ?_, ?_⟩
    · rw [onSubmit_create env t name file hd, finishSubmit_trace,
        createNewScreen_trace]
      simp
    · rw [onSubmit_create env t name file hd, finishSubmit_trace,
        createNewScreen_trace]
      exact List.mem_cons_of_mem _ (List.mem_cons_self _ _)

/-- C5 witness: over the duplicate table the submission attempts exactly one
lookup, the lookup errors, no version read happens, and the version-1 insert
is attempted. -/
theorem claim_C5_lookup_witness :
    (onSubmit envOk dupTable "a" "new").trace.countP
      (fun c => c.isLookup) = 1 ∧
    (lookupStep envOk dupTable "a").2 = true ∧
    DbCall.versionRead ∉ (onSubmit envOk dupTable "a" "new").trace ∧
    DbCall.insert ⟨envOk.nextId, "a", "new", 1, ""⟩ ∈
      (onSubmit envOk dupTable "a" "new").trace := by
  have h := claim_C5_lookup envOk dupTable "a" "new" rfl
  have h3 := h.2.2 (by decide)
  exact ⟨h.1, h3.1, h3.2.1, h3.2.2⟩

/-- C6 counterexample: a submission whose max-version read fails is not
caught by the outermost handler: nothing is logged, the dialog closes and the
view refreshes, the failure mode having silently produced a version-1 history
row. -/
theorem claim_C6_counterexample :
    envVerErr.versionReadError = true ∧
    (onSubmit envVerErr oneTable "aa" "new").aborted = false ∧
    (onSubmit envVerErr oneTable "aa" "new").consoleLogged = false ∧
    (onSubmit envVerErr oneTable "aa" "new").refreshed = true ∧
    (onSubmit envVerErr oneTable "aa" "new").dialogClosed = true ∧
    (⟨100, "aa", "new", 1, "TODO: Specify the changes here"⟩ : ScreenRow) ∈
      (onSubmit envVerErr oneTable "aa" "new").table := by
  decide

/-- The MIME entry of the upload dropzone matches exactly the files whose
MIME type equals image/svg+xml. -/
theorem acceptEntryMatch_mime (f : DroppedFile) :
    acceptEntryMatch "image/svg+xml" f = (f.mime == "image/svg+xml") := rfl

/-- The extension entry of the upload dropzone matches exactly the files
whose lowercased name ends in the svg extension. -/
theorem acceptEntryMatch_ext (f : DroppedFile) :
    acceptEntryMatch ".svg" f =
      ".svg".data.isSuffixOf (lowerString f.name).data := rfl

/-- A file whose browser MIME type is text/plain but whose name carries the
svg extension. -/
def svgNamedPlainFile : DroppedFile := ⟨"figure.svg", "text/plain", 10, "<svg/>"⟩

/-- C9 counterexample: the dropzone accepts a ten-byte file whose MIME type
is not image/svg+xml, because its name ends in the svg extension; acceptance
is not restricted to the SVG MIME type. -/
theorem claim_C9_counterexample :
    dropzoneAccepts uploadDropzoneConfig svgNamedPlainFile = true ∧
    svgNamedPlainFile.mime ≠ "image/svg+xml" := by
  constructor
  · decide
  · decide

/-- C9 amended: the file input takes at most one file, of maximum size ten
mebibytes inclusive; a file is accepted exactly when its MIME type is
image/svg+xml or its lowercased name ends in the svg extension, and its size
is within the bound; an accepted file has its whole text content stored as
the form file value. -/
theorem claim_C9_dropzone :
    uploadDropzoneConfig.maxFiles = 1 ∧
    uploadDropzoneConfig.maxSize = 1024 * 1024 * 10 ∧
    (∀ f : DroppedFile, dropzoneAccepts uploadDropzoneConfig f = true ↔
      ((f.mime = "image/svg+xml" ∨
        ".svg".data.isSuffixOf (lowerString f.name).data = true) ∧
        f.size ≤ 1024 * 1024 * 10)) ∧
    (∀ f : DroppedFile, dropzoneAccepts uploadDropzoneConfig f = true →
      processDrop uploadDropzoneConfig f "" = f.content) := by
  refine ⟨rfl, rfl, ?_, ?_⟩
  · intro f
    unfold dropzoneAccepts uploadDropzoneConfig
    simp [List.any_cons, List.any_nil, acceptEntryMatch_mime,
      acceptEntryMatch_ext]
  · intro f h
    unfold processDrop
    simp [h]

/-- C9 witness: a small well-typed SVG file is accepted and its content is
stored in the form. -/
theorem claim_C9_dropzone_witness :
    dropzoneAccepts uploadDropzoneConfig
      ⟨"a.svg", "image/svg+xml", 6, "<svg>"⟩ = true ∧
    processDrop uploadDropzoneConfig
      ⟨"a.svg", "image/svg+xml", 6, "<svg>"⟩ "" = "<svg>" := by
  have h := claim_C9_dropzone
  have ha : dropzoneAccepts uploadDropzoneConfig
      ⟨"a.svg", "image/svg+xml", 6, "<svg>"⟩ = true :=
    (h.2.2.1 ⟨"a.svg", "image/svg+xml", 6, "<svg>"⟩).mpr
      ⟨Or.inl rfl, by norm_num⟩
  exact ⟨ha, h.2.2.2 ⟨"a.svg", "image/svg+xml", 6, "<svg>"⟩ ha⟩

end Handover
